import Mathlib

/-!
Shallow embedding of the Netlify serverless function
`netlify/functions/appointments.js`: a single-resource CRUD endpoint for
vehicle-service appointments backed by one `appointments` table.

Modelling conventions:
* JavaScript runtime values occurring in request payloads are modelled by
  `JVal` (strings, numbers, `null`); an absent key (`undefined`) is `Option.none`.
* JavaScript string primitives (`trim`, `toUpperCase`, `split`) are modelled
  structurally over the character list so that they evaluate inside the kernel.
* `JSON.parse(event.body)` is modelled by its outcome: `Except String Input`,
  where `.error m` stands for a parse exception with message `m`.
* The database is a list of `Row`s.  The single SQL statement of each branch
  is modelled directly (ORDER BY as a merge sort on the SQL sort key, INSERT
  as an append, UPDATE as a map, DELETE as a filter).  A thrown query is
  modelled by `World.dbErr = some msg`.  Stored SQL dates are kept as the ISO
  `YYYY-MM-DD` strings the API exchanges, so the read-back serialization
  `row.date.toISOString().split('T')[0]` is the identity on them.
* Executed INSERT/UPDATE/DELETE/SELECT statements are recorded in an op list,
  and the `client.connect()` / `client.end()` pair of the try/finally block is
  recorded by the `acquired`/`released` counters of the result.
-/

/-- A JavaScript runtime value as it can occur in a JSON request payload
(objects and arrays never reach the fields the handler touches). -/
inductive JVal where
  | str : String → JVal
  | num : Int → JVal
  | null : JVal
deriving Repr, DecidableEq

/-- JavaScript truthiness of a `JVal`: `""`, `0` and `null` are falsy. -/
def JVal.truthy : JVal → Bool
  | .str s => s ≠ ""
  | .num n => n ≠ 0
  | .null => false

/-- Truthiness of a possibly absent value (`undefined` is falsy). -/
def truthy : Option JVal → Bool
  | some v => v.truthy
  | none => false

/-- `typeof v === 'string'`. -/
def isStr : Option JVal → Bool
  | some (.str _) => true
  | _ => false

/-- The string carried by a string value (callers check `isStr` first). -/
def strOf : Option JVal → String
  | some (.str s) => s
  | _ => ""

/-- Characters removed by JavaScript's `String.prototype.trim` (the common
whitespace characters; the exotic Unicode space classes are not modelled). -/
def isJsWs (c : Char) : Bool := c = ' ' || c = '\t' || c = '\n' || c = '\r'

/-- Model of JavaScript `s.trim()`: drop whitespace from both ends. -/
def jsTrim (s : String) : String :=
  ⟨((s.data.dropWhile isJsWs).reverse.dropWhile isJsWs).reverse⟩

/-- Uppercase one character the way `String.prototype.toUpperCase` does on
the Basic Latin and Latin-1 ranges: ASCII a-z and à-þ (÷ excepted) move
down by 32, ß expands to "SS", ÿ maps to Ÿ, µ maps to the Greek capital Μ.
Letters beyond Latin-1 keep their case in this model (the payloads the API
traffics in are Latin-1). -/
def jsCharUpper (c : Char) : List Char :=
  if ('a' ≤ c && c ≤ 'z') || ('à' ≤ c && c ≤ 'þ' && c ≠ '÷') then
    [Char.ofNat (c.toNat - 32)]
  else if c = 'ß' then ['S', 'S']
  else if c = 'ÿ' then ['Ÿ']
  else if c = 'µ' then ['Μ']
  else [c]

/-- Model of JavaScript `s.toUpperCase()`. -/
def jsToUpper (s : String) : String := ⟨(s.data.map jsCharUpper).flatten⟩

/-- Split a character list at every occurrence of `sep` (JavaScript
`String.prototype.split` semantics: `n` separators yield `n + 1` pieces). -/
def splitChars (sep : Char) : List Char → List (List Char)
  | [] => [[]]
  | c :: cs =>
    match splitChars sep cs with
    | [] => [[]]
    | g :: gs => if c = sep then [] :: g :: gs else (c :: g) :: gs

/-- Model of JavaScript `s.split(sep)` for a one-character separator. -/
def jsSplit (s : String) (sep : Char) : List String :=
  (splitChars sep s.data).map (fun l => ⟨l⟩)

/-- The request payload as the handler reads it: each key the code touches,
absent (`none`) or bound to a runtime value.  Both spellings of the sort
index key are carried because `transformToBackend` reads both. -/
structure Input where
  date : Option JVal := none
  period : Option JVal := none
  plate : Option JVal := none
  car : Option JVal := none
  service : Option JVal := none
  locality : Option JVal := none
  status : Option JVal := none
  notes : Option JVal := none
  extra : Option JVal := none
  sortIndex : Option JVal := none
  sort_index : Option JVal := none
deriving Repr, DecidableEq

/-- The five service codes accepted by validation. -/
def serviceCodes : List String := ["PB", "LT", "OC", "REP", "POL"]

/-- The three status codes accepted by validation. -/
def statusCodes : List String := ["NE", "VE", "ST"]

/-- The two period values accepted by validation. -/
def periodValues : List String := ["Manhã", "Tarde"]

/-- `!v || typeof v !== 'string' || v.trim().length === 0`: the test shared
by the plate, car and locality rules. -/
def badStrField (v : Option JVal) : Bool :=
  !truthy v || !isStr v || (jsTrim (strOf v)).length == 0

/-- `['A','B'].includes(v)`: true exactly when `v` is one of the listed
strings (strict equality, so non-strings never match). -/
def inSet (v : Option JVal) (codes : List String) : Bool :=
  match v with
  | some (.str s) => codes.contains s
  | _ => false

/-- `validateAppointment(data)`: pushes one message per violated rule onto
the error list and returns all of them. -/
def validateAppointment (d : Input) : List String :=
  (if badStrField d.plate then ["Matrícula é obrigatória"] else []) ++
  (if badStrField d.car then ["Modelo do carro é obrigatório"] else []) ++
  (if !truthy d.service || !inSet d.service serviceCodes then
    ["Tipo de serviço inválido"] else []) ++
  (if badStrField d.locality then ["Localidade é obrigatória"] else []) ++
  (if !truthy d.status || !inSet d.status statusCodes then
    ["Status inválido"] else []) ++
  (if truthy d.period && !inSet d.period periodValues then
    ["Período inválido"] else [])

/-- `x || null`: keep a truthy value, collapse every falsy value to null
(`none` encodes the resulting `null`). -/
def jsOrNull (v : Option JVal) : Option JVal := if truthy v then v else none

/-- `x || d`: a truthy value wins, otherwise the default. -/
def jsOrDefault (v : Option JVal) (dflt : JVal) : JVal :=
  match v with
  | some x => if x.truthy then x else dflt
  | none => dflt

/-- The message of the TypeError raised when a string method is invoked on
a non-string value (stands for the runtime's own text, e.g.
"data.notes.trim is not a function"; the source never inspects it). -/
def typeErrorMessage : String := "is not a function"

/-- `v?.toUpperCase().trim()`.  `?.` turns `undefined`/`null` into
`undefined` (here `none`); on any other non-string value the method call
raises a TypeError, which the handler's catch converts into a 500. -/
def optUpperTrim : Option JVal → Except String (Option String)
  | none => .ok none
  | some .null => .ok none
  | some (.str s) => .ok (some (jsTrim (jsToUpper s)))
  | some (.num _) => .error typeErrorMessage

/-- `v?.trim()` (same conventions as `optUpperTrim`). -/
def optTrim : Option JVal → Except String (Option String)
  | none => .ok none
  | some .null => .ok none
  | some (.str s) => .ok (some (jsTrim s))
  | some (.num _) => .error typeErrorMessage

/-- `v?.trim() || null`: trimmed text, with empty or absent text as null;
a number raises a TypeError like the other string fields. -/
def optTrimOrNull : Option JVal → Except String (Option String)
  | none => .ok none
  | some .null => .ok none
  | some (.str s) => .ok (if jsTrim s = "" then none else some (jsTrim s))
  | some (.num _) => .error typeErrorMessage

/-- The record built by `transformToBackend`, field for field. -/
structure BackendData where
  date : Option JVal
  period : Option JVal
  plate : Option String
  car : Option String
  service : Option JVal
  locality : Option String
  status : JVal
  notes : Option String
  extra : Option String
  sort_index : JVal
deriving Repr, DecidableEq

/-- `transformToBackend(data)`.  The object literal's fields are evaluated
top to bottom; the first string method applied to a non-string value
throws, so the result is an exception or the whole record. -/
def transformToBackend (d : Input) : Except String BackendData := do
  let plate ← optUpperTrim d.plate
  let car ← optTrim d.car
  let locality ← optTrim d.locality
  let notes ← optTrimOrNull d.notes
  let extra ← optTrimOrNull d.extra
  pure { date := jsOrNull d.date
       , period := jsOrNull d.period
       , plate := plate
       , car := car
       , service := d.service
       , locality := locality
       , status := jsOrDefault d.status (.str "NE")
       , notes := notes
       , extra := extra
       , sort_index := jsOrDefault d.sortIndex (jsOrDefault d.sort_index (.num 1)) }

/-- A stored row of the `appointments` table. -/
structure Row where
  id : String
  date : Option String
  period : Option String
  plate : String
  car : String
  service : String
  locality : String
  status : String
  notes : Option String
  extra : Option String
  sort_index : Int
  created_at : Nat
  updated_at : Nat
deriving Repr, DecidableEq

/-- The JSON entity produced by `transformToFrontend`. -/
structure Appointment where
  id : String
  date : Option String
  period : Option String
  plate : String
  car : String
  service : String
  locality : String
  status : String
  notes : Option String
  extra : Option String
  sortIndex : Int
  createdAt : Nat
  updatedAt : Nat
deriving Repr, DecidableEq

/-- `transformToFrontend(row)`.  Dates are stored as the ISO `YYYY-MM-DD`
strings, so `row.date ? row.date.toISOString().split('T')[0] : null` is the
identity on the stored option. -/
def transformToFrontend (r : Row) : Appointment :=
  { id := r.id
  , date := r.date
  , period := r.period
  , plate := r.plate
  , car := r.car
  , service := r.service
  , locality := r.locality
  , status := r.status
  , notes := r.notes
  , extra := r.extra
  , sortIndex := r.sort_index
  , createdAt := r.created_at
  , updatedAt := r.updated_at }

/-- The typed column values of one INSERT/UPDATE parameter list, after the
database has coerced the JavaScript parameters to the column types. -/
structure Coerced where
  date : Option String
  period : Option String
  plate : String
  car : String
  service : String
  locality : String
  status : String
  notes : Option String
  extra : Option String
  sort_index : Int
deriving Repr, DecidableEq

/-- A nullable text-ish parameter: SQL NULL or a string.  Any other value
makes the statement throw (modelled as `none`). -/
def coerceOptStr : Option JVal → Option (Option String)
  | none => some none
  | some (.str s) => some (some s)
  | some _ => none

/-- Whether a string is a calendar-shaped ISO date `YYYY-MM-DD` (four
digits, dash, month 01-12, dash, day 01-31).  These are the date literals
the API traffics in; they are stored and serialized back verbatim by a UTC
runtime.  Other spellings the database's date parser would accept (and
normalize on read-back) are outside this model. -/
def isIsoDate (s : String) : Bool :=
  match s.data with
  | [y1, y2, y3, y4, '-', m1, m2, '-', d1, d2] =>
    y1.isDigit && y2.isDigit && y3.isDigit && y4.isDigit &&
    m1.isDigit && m2.isDigit && d1.isDigit && d2.isDigit &&
    (let m := (m1.toNat - 48) * 10 + (m2.toNat - 48)
     let d := (d1.toNat - 48) * 10 + (d2.toNat - 48)
     1 ≤ m && m ≤ 12 && 1 ≤ d && d ≤ 31)
  | _ => false

/-- The date column: SQL NULL, or a date literal the cast accepts. -/
def coerceDate : Option JVal → Option (Option String)
  | none => some none
  | some (.str s) => if isIsoDate s then some (some s) else none
  | some _ => none

/-- The digits of a decimal literal, as a number. -/
def digitsToNat : List Char → Option Nat
  | [] => none
  | ds =>
    if ds.all Char.isDigit then
      some (ds.foldl (fun a c => a * 10 + (c.toNat - 48)) 0)
    else none

/-- The database's text-to-integer cast: optional surrounding whitespace,
an optional sign, then decimal digits. -/
def pgParseInt (s : String) : Option Int :=
  match (jsTrim s).data with
  | '-' :: ds => (digitsToNat ds).map (fun n => -(n : Int))
  | '+' :: ds => (digitsToNat ds).map (fun n => (n : Int))
  | ds => (digitsToNat ds).map (fun n => (n : Int))

/-- A required text column: accepts a string value only. -/
def coerceStr : Option JVal → Option String
  | some (.str s) => some s
  | _ => none

/-- The status parameter (always present after `transformToBackend`). -/
def coerceStatus : JVal → Option String
  | .str s => some s
  | _ => none

/-- The integer column: a number directly, or a string through the
database's text-to-integer cast. -/
def coerceSortIndex : JVal → Option Int
  | .num n => some n
  | .str s => pgParseInt s
  | .null => none

/-- Database-side coercion of the `transformToBackend` record to the column
types.  `none` models the query throwing: a NULL in a NOT NULL column or a
value the column type's input cast rejects. -/
def coerceBackend (b : BackendData) : Option Coerced := do
  let date ← coerceDate b.date
  let period ← coerceOptStr b.period
  let plate ← b.plate
  let car ← b.car
  let service ← coerceStr b.service
  let locality ← b.locality
  let status ← coerceStatus b.status
  let si ← coerceSortIndex b.sort_index
  pure { date := date, period := period, plate := plate, car := car
       , service := service, locality := locality, status := status
       , notes := b.notes, extra := b.extra, sort_index := si }

/-- The row INSERT creates: the parameter values plus the server-assigned id
and the CURRENT_TIMESTAMP defaults of `created_at`/`updated_at`. -/
def mkRow (c : Coerced) (id : String) (now : Nat) : Row :=
  { id := id, date := c.date, period := c.period, plate := c.plate
  , car := c.car, service := c.service, locality := c.locality
  , status := c.status, notes := c.notes, extra := c.extra
  , sort_index := c.sort_index, created_at := now, updated_at := now }

/-- The UPDATE SET list applied to a matching row: every mutable column is
replaced and `updated_at` refreshed; `id` and `created_at` are not in the
SET list. -/
def applyUpdate (c : Coerced) (now : Nat) (r : Row) : Row :=
  { r with
    date := c.date, period := c.period, plate := c.plate,
    car := c.car, service := c.service, locality := c.locality,
    status := c.status, notes := c.notes, extra := c.extra,
    sort_index := c.sort_index, updated_at := now }

/-- `CASE WHEN date IS NULL THEN 1 ELSE 0 END`: the leading ORDER BY key. -/
def dateNullFlag (r : Row) : Nat := if r.date.isNone then 1 else 0

/-- Sort key of the `period` column under `period ASC`: SQL places NULLs
last in an ascending sort, non-null values in string order. -/
def periodKey : Option String → Lex (Nat × String)
  | some s => toLex (0, s)
  | none => toLex (1, "")

/-- The lexicographic ORDER BY key of the GET query:
null-date flag, then `date ASC` (null dates all compare equal through the
placeholder), then `period ASC` (NULLs last), then `sort_index ASC`. -/
def rowKey (r : Row) : Lex (Nat × Lex (String × Lex (Lex (Nat × String) × Int))) :=
  toLex (dateNullFlag r,
    toLex (r.date.getD "", toLex (periodKey r.period, r.sort_index)))

/-- The row comparison the ORDER BY clause induces. -/
def rowLE (a b : Row) : Bool := decide (rowKey a ≤ rowKey b)

/-- The GET query: every row of the table, ordered by the ORDER BY key. -/
def listAppointments (db : List Row) : List Row := db.mergeSort rowLE

/-- The `details` field of an error envelope: a list of validation messages
on 400, a single internal message on 500 in development. -/
inductive DetailVal where
  | strs : List String → DetailVal
  | msg : String → DetailVal
deriving Repr, DecidableEq

/-- The `data` field of a success envelope. -/
inductive Payload where
  | list : List Appointment → Payload
  | item : Appointment → Payload
  | absent : Payload
deriving Repr, DecidableEq

/-- The response body: empty (the OPTIONS preflight) or a JSON envelope.
The uniform CORS headers carry no per-request information and are omitted. -/
inductive Body where
  | empty : Body
  | json : Bool → Option String → Option DetailVal → Option String → Payload → Body
deriving Repr, DecidableEq

/-- An HTTP response of the handler. -/
structure Response where
  statusCode : Nat
  body : Body
deriving Repr, DecidableEq

/-- The `error` field of the response body. -/
def Response.respError : Response → Option String
  | ⟨_, .empty⟩ => none
  | ⟨_, .json _ e _ _ _⟩ => e

/-- The `details` field of the response body. -/
def Response.respDetails : Response → Option DetailVal
  | ⟨_, .empty⟩ => none
  | ⟨_, .json _ _ d _ _⟩ => d

/-- The `data` field of the response body. -/
def Response.respData : Response → Payload
  | ⟨_, .empty⟩ => .absent
  | ⟨_, .json _ _ _ _ p⟩ => p

/-- The OPTIONS preflight response: 200, empty body. -/
def optionsResponse : Response := ⟨200, .empty⟩

/-- The GET success envelope. -/
def listResponse (l : List Appointment) : Response :=
  ⟨200, .json true none none none (.list l)⟩

/-- The POST success envelope. -/
def createdResponse (a : Appointment) : Response :=
  ⟨201, .json true none none (some "Agendamento criado com sucesso") (.item a)⟩

/-- The 400 envelope listing every validation violation. -/
def validationErrorResponse (errs : List String) : Response :=
  ⟨400, .json false (some "Dados inválidos") (some (.strs errs)) none .absent⟩

/-- The 400 envelope of the PUT/DELETE id guard. -/
def idRequiredResponse : Response :=
  ⟨400, .json false (some "ID do agendamento é obrigatório") none none .absent⟩

/-- The 404 envelope of PUT/DELETE on an unknown id. -/
def notFoundResponse : Response :=
  ⟨404, .json false (some "Agendamento não encontrado") none none .absent⟩

/-- The PUT success envelope. -/
def updatedResponse (a : Appointment) : Response :=
  ⟨200, .json true none none (some "Agendamento atualizado com sucesso") (.item a)⟩

/-- The DELETE success envelope. -/
def deletedResponse : Response :=
  ⟨200, .json true none none (some "Agendamento eliminado com sucesso") .absent⟩

/-- The 405 envelope of the default switch branch. -/
def methodNotAllowedResponse : Response :=
  ⟨405, .json false (some "Método não permitido") none none .absent⟩

/-- The catch-all 500 envelope: generic error string, and the thrown
message in `details` exactly when `NODE_ENV === 'development'`. -/
def serverErrorResponse (env msg : String) : Response :=
  ⟨500, .json false (some "Erro interno do servidor")
    (if env = "development" then some (.msg msg) else none) none .absent⟩

/-- The incoming platform event: method, path, and the outcome of
`JSON.parse(event.body)` (`.error m` models a parse exception). -/
structure Event where
  httpMethod : String
  path : String
  body : Except String Input
deriving Repr

/-- `pathParts[pathParts.length - 1]` of `path.split('/')`. -/
def appointmentIdOf (ev : Event) : String := (jsSplit ev.path '/').getLastD ""

/-- The world a request runs against: the table, whether `client.connect()`
succeeds, whether SQL queries throw (`some msg` = throw with that message),
the id the database assigns on INSERT, and CURRENT_TIMESTAMP. -/
structure World where
  db : List Row
  connectOk : Bool := true
  dbErr : Option String := none
  nextId : String := "1"
  now : Nat := 0
deriving Repr, DecidableEq

/-- One executed SQL statement. -/
inductive DbOp where
  | select : DbOp
  | insert : Row → DbOp
  | update : String → DbOp
  | delete : String → DbOp
deriving Repr, DecidableEq

/-- The message a failed database-side coercion throws with. -/
def castErrorMessage : String := "invalid input syntax"

/-- The message a failed `client.connect()` throws with (stands for the
driver's own text, which the source never inspects). -/
def connectErrorMessage : String := "connection error"

/-- GET branch: one SELECT, all rows ordered, mapped to entities. -/
def getBranch (w : World) : Except String (Response × List Row × List DbOp) :=
  match w.dbErr with
  | some m => .error m
  | none =>
    .ok (listResponse ((listAppointments w.db).map transformToFrontend), w.db, [.select])

/-- POST branch: parse, validate (reporting every violation), transform,
INSERT RETURNING, 201 with the created entity. -/
def postBranch (w : World) (body : Except String Input) :
    Except String (Response × List Row × List DbOp) :=
  match body with
  | .error m => .error m
  | .ok d =>
    let errs := validateAppointment d
    if errs.length > 0 then .ok (validationErrorResponse errs, w.db, [])
    else
      match transformToBackend d with
      | .error m => .error m
      | .ok b =>
        match w.dbErr with
        | some m => .error m
        | none =>
          match coerceBackend b with
          | none => .error castErrorMessage
          | some c =>
            let r := mkRow c w.nextId w.now
            .ok (createdResponse (transformToFrontend r), w.db ++ [r], [.insert r])

/-- PUT branch: id guard, parse, the same validation as POST, transform,
UPDATE ... WHERE id = $11 RETURNING, 404 on no match, else 200 with the
updated entity. -/
def putBranch (w : World) (id : String) (body : Except String Input) :
    Except String (Response × List Row × List DbOp) :=
  if id = "" ∨ id = "appointments" then .ok (idRequiredResponse, w.db, [])
  else
    match body with
    | .error m => .error m
    | .ok d =>
      let errs := validateAppointment d
      if errs.length > 0 then .ok (validationErrorResponse errs, w.db, [])
      else
        match transformToBackend d with
        | .error m => .error m
        | .ok b =>
          match w.dbErr with
          | some m => .error m
          | none =>
            match coerceBackend b with
            | none => .error castErrorMessage
            | some c =>
              match w.db.filter (fun r => r.id == id) with
              | [] => .ok (notFoundResponse, w.db, [.update id])
              | r :: _ =>
                .ok (updatedResponse (transformToFrontend (applyUpdate c w.now r)),
                     w.db.map (fun r => if r.id == id then applyUpdate c w.now r else r),
                     [.update id])

/-- DELETE branch: id guard, DELETE ... WHERE id = $1 RETURNING, 404 on no
match, else 200 with a confirmation message. -/
def deleteBranch (w : World) (id : String) :
    Except String (Response × List Row × List DbOp) :=
  if id = "" ∨ id = "appointments" then .ok (idRequiredResponse, w.db, [])
  else
    match w.dbErr with
    | some m => .error m
    | none =>
      match w.db.filter (fun r => r.id == id) with
      | [] => .ok (notFoundResponse, w.db, [.delete id])
      | _ :: _ => .ok (deletedResponse, w.db.filter (fun r => !(r.id == id)), [.delete id])

/-- The switch on `event.httpMethod` inside the try block. -/
def runSwitch (w : World) (ev : Event) : Except String (Response × List Row × List DbOp) :=
  match ev.httpMethod with
  | "GET" => getBranch w
  | "POST" => postBranch w ev.body
  | "PUT" => putBranch w (appointmentIdOf ev) ev.body
  | "DELETE" => deleteBranch w (appointmentIdOf ev)
  | _ => .ok (methodNotAllowedResponse, w.db, [])

/-- The full outcome of one invocation: the response, the table afterwards,
the executed SQL statements, and how many connections were acquired by
`connectDB()` and released by the finally block's `client.end()`. -/
structure HResult where
  resp : Response
  db : List Row
  ops : List DbOp
  acquired : Nat
  released : Nat
deriving Repr, DecidableEq

/-- `exports.handler`: OPTIONS short-circuits before any connection; the
try block connects and runs the switch; the catch turns any thrown message
into the 500 envelope; the finally releases the connection iff one was
acquired. -/
def handler (env : String) (w : World) (ev : Event) : HResult :=
  if ev.httpMethod = "OPTIONS" then
    { resp := optionsResponse, db := w.db, ops := [], acquired := 0, released := 0 }
  else if w.connectOk then
    match runSwitch w ev with
    | .ok (resp, db, ops) =>
      { resp := resp, db := db, ops := ops, acquired := 1, released := 1 }
    | .error m =>
      { resp := serverErrorResponse env m, db := w.db, ops := [],
        acquired := 1, released := 1 }
  else
    { resp := serverErrorResponse env connectErrorMessage, db := w.db, ops := [],
      acquired := 0, released := 0 }

/-- The six validation rules, named. -/
inductive VRule where
  | plate | car | service | locality | status | period
deriving Repr, DecidableEq

/-- Whether an input violates a given rule (the six if-conditions of
`validateAppointment`, rule by rule). -/
def ruleViolated (d : Input) : VRule → Bool
  | .plate => badStrField d.plate
  | .car => badStrField d.car
  | .service => !truthy d.service || !inSet d.service serviceCodes
  | .locality => badStrField d.locality
  | .status => !truthy d.status || !inSet d.status statusCodes
  | .period => truthy d.period && !inSet d.period periodValues

/-- The message each rule pushes when violated. -/
def ruleMessage : VRule → String
  | .plate => "Matrícula é obrigatória"
  | .car => "Modelo do carro é obrigatório"
  | .service => "Tipo de serviço inválido"
  | .locality => "Localidade é obrigatória"
  | .status => "Status inválido"
  | .period => "Período inválido"

/-- All six rules, in the order the code checks them. -/
def allRules : List VRule := [.plate, .car, .service, .locality, .status, .period]

/-! Concrete fixtures used by counterexamples and witnesses. -/

/-- An empty table, connection fine, queries fine. -/
def emptyWorld : World := { db := [] }

/-- A POST event to the collection path carrying a parsed payload. -/
def postEvent (d : Input) : Event :=
  { httpMethod := "POST", path := "/.netlify/functions/appointments", body := .ok d }

/-- The record `transformToBackend` builds from `validInput`. -/
def validBackend : BackendData :=
  { date := some (.str "2024-05-01"), period := some (.str "Manhã"),
    plate := some "AB-12-CD", car := some "Golf", service := some (.str "PB"),
    locality := some "Porto", status := .str "VE", notes := some "hello",
    extra := none, sort_index := .num 1 }

/-- A payload valid in every field but with `status` absent. -/
def noStatusInput : Input :=
  { plate := some (.str "AA-11-BB"), car := some (.str "Golf"),
    service := some (.str "PB"), locality := some (.str "Porto") }

/-- A payload omitting both `plate` and `service`, everything else valid. -/
def missingPlateServiceInput : Input :=
  { car := some (.str "Golf"), locality := some (.str "Porto"),
    status := some (.str "NE") }

/-- A GET request whose body would not parse as JSON. -/
def badBodyGetEvent : Event :=
  { httpMethod := "GET", path := "/.netlify/functions/appointments",
    body := .error "Unexpected token" }

/-- A GET request on the collection path. -/
def getEventA : Event :=
  { httpMethod := "GET", path := "/.netlify/functions/appointments", body := .ok {} }

/-- A GET request on a path carrying a trailing id segment. -/
def getEventB : Event :=
  { httpMethod := "GET", path := "/.netlify/functions/appointments/42", body := .ok {} }

/-- A world whose queries throw "db down". -/
def errWorld : World := { db := [], dbErr := some "db down" }

theorem rowLE_trans (a b c : Row) (h1 : rowLE a b = true) (h2 : rowLE b c = true) :
    rowLE a c = true := by
  simp only [rowLE, decide_eq_true_eq] at h1 h2 ⊢
  exact le_trans h1 h2

theorem rowLE_total (a b : Row) : (rowLE a b || rowLE b a) = true := by
  simp only [rowLE, Bool.or_eq_true, decide_eq_true_eq]
  exact le_total _ _

theorem listAppointments_perm (db : List Row) : (listAppointments db).Perm db :=
  List.mergeSort_perm db rowLE

theorem listAppointments_sorted (db : List Row) :
    List.Pairwise (fun a b => rowLE a b = true) (listAppointments db) :=
  List.sorted_mergeSort rowLE_trans rowLE_total db

theorem listAppointments_nil : listAppointments ([] : List Row) = [] :=
  (List.mergeSort_perm [] rowLE).eq_nil

theorem listAppointments_singleton (r : Row) : listAppointments [r] = [r] :=
  List.perm_singleton.mp (List.mergeSort_perm [r] rowLE)

theorem inSet_true_shape (v : Option JVal) (codes : List String)
    (h : (!truthy v || !inSet v codes) = false) :
    ∃ s, v = some (.str s) ∧ s ∈ codes := by
  rcases v with _ | x
  · simp [truthy] at h
  · rcases x with s | n | _
    · refine ⟨s, rfl, ?_⟩
      simp [inSet] at h
      exact h.2
    · simp [inSet] at h
    · simp [truthy, JVal.truthy] at h

theorem handler_post_invalid (env : String) (w : World) (ev : Event) (d : Input)
    (hm : ev.httpMethod = "POST") (hb : ev.body = .ok d) (hc : w.connectOk = true)
    (hv : validateAppointment d ≠ []) :
    handler env w ev =
      { resp := validationErrorResponse (validateAppointment d), db := w.db,
        ops := [], acquired := 1, released := 1 } := by
  simp only [handler, hm, hc, runSwitch, postBranch, hb]
  simp only [List.length_pos.mpr hv, if_true, reduceIte]
  rfl

/-- C3: List returns every appointment row — the output is a permutation of
the table (no filtering, no pagination) — ordered by the SQL sort key:
consecutive rows are related by `rowLE`, which (last conjunct) means
null-date rows last, then ascending date, then ascending period, then
ascending sort_index. -/
theorem listAppointments_orders_all_rows (db : List Row) :
    (listAppointments db).Perm db ∧
    List.Pairwise (fun a b => rowLE a b = true) (listAppointments db) ∧
    (∀ a b : Row, rowLE a b = true ↔
      (dateNullFlag a < dateNullFlag b ∨
        (dateNullFlag a = dateNullFlag b ∧
          (a.date.getD "" < b.date.getD "" ∨
            (a.date.getD "" = b.date.getD "" ∧
              (periodKey a.period < periodKey b.period ∨
                (periodKey a.period = periodKey b.period ∧
                  a.sort_index ≤ b.sort_index))))))) := by
  refine ⟨listAppointments_perm db, listAppointments_sorted db, fun a b => ?_⟩
  simp [rowLE, rowKey, Prod.Lex.le_iff]

/-- C2: validation accumulates every violation: the error list is exactly
the messages of the violated rules, one message per rule (the rule list has
no duplicates), the 400 response carries that list in `details`, and the
payload omitting both plate and service while otherwise valid yields exactly
the two corresponding messages. -/
theorem validation_accumulates_all_violations (env : String) (w : World)
    (ev : Event) (d : Input)
    (hm : ev.httpMethod = "POST") (hb : ev.body = .ok d) (hc : w.connectOk = true)
    (hv : validateAppointment d ≠ []) :
    (handler env w ev).resp = validationErrorResponse (validateAppointment d) ∧
    validateAppointment d = (allRules.filter (ruleViolated d)).map ruleMessage ∧
    (allRules.filter (ruleViolated d)).Nodup ∧
    validateAppointment missingPlateServiceInput =
      ["Matrícula é obrigatória", "Tipo de serviço inválido"] := by
  refine ⟨?_, ?_, ?_, by decide⟩
  · rw [handler_post_invalid env w ev d hm hb hc hv]
  · cases h1 : badStrField d.plate <;> cases h2 : badStrField d.car <;>
    cases h3 : (!truthy d.service || !inSet d.service serviceCodes) <;>
    cases h4 : badStrField d.locality <;>
    cases h5 : (!truthy d.status || !inSet d.status statusCodes) <;>
    cases h6 : (truthy d.period && !inSet d.period periodValues) <;>
    simp [validateAppointment, allRules, ruleViolated, ruleMessage,
      h1, h2, h3, h4, h5, h6]
  · exact List.Nodup.filter _ (by decide)

/-- C2 witness: the concrete payload missing plate and service makes the
handler answer 400 with both messages. -/
theorem validation_accumulates_all_violations_witness :
    (postEvent missingPlateServiceInput).httpMethod = "POST" ∧
    (handler "production" emptyWorld (postEvent missingPlateServiceInput)).resp =
      validationErrorResponse (validateAppointment missingPlateServiceInput) :=
  ⟨by decide,
    (validation_accumulates_all_violations "production" emptyWorld
      (postEvent missingPlateServiceInput) missingPlateServiceInput
      (by decide) rfl (by decide) (by decide)).1⟩

theorem runSwitch_400_no_write (w : World) (ev : Event) (resp : Response)
    (db : List Row) (ops : List DbOp)
    (h : runSwitch w ev = .ok (resp, db, ops))
    (h400 : resp.statusCode = 400) : ops = [] ∧ db = w.db := by
  unfold runSwitch getBranch postBranch putBranch deleteBranch at h
  repeat' split at h
  all_goals try (dsimp only [] at h)
  all_goals try (split at h)
  all_goals try (simp only [Except.ok.injEq, Prod.mk.injEq] at h)
  all_goals first
    | exact ⟨rfl, rfl⟩
    | (obtain ⟨h1, h2, h3⟩ := h; subst h1; subst h2; subst h3;
       simp_all [listResponse, createdResponse, validationErrorResponse,
         idRequiredResponse, notFoundResponse, updatedResponse,
         deletedResponse, methodNotAllowedResponse, optionsResponse])
    | simp_all [listResponse, createdResponse, validationErrorResponse,
        idRequiredResponse, notFoundResponse, updatedResponse,
        deletedResponse, methodNotAllowedResponse, optionsResponse]

/-- C6: whenever a request is answered with a 400 (validation failure on
Create or Update, or the id guard), no SQL statement at all was executed —
in particular no INSERT or UPDATE — and the table is unchanged. -/
theorem validation_failure_no_write (env : String) (w : World) (ev : Event)
    (h400 : (handler env w ev).resp.statusCode = 400) :
    (handler env w ev).ops = [] ∧ (handler env w ev).db = w.db := by
  by_cases hopt : ev.httpMethod = "OPTIONS"
  · simp [handler, hopt, optionsResponse] at h400
  · cases hc : w.connectOk
    · simp [handler, hopt, hc, serverErrorResponse] at h400
    · rcases hrs : runSwitch w ev with m | ⟨resp, db, ops⟩
      · simp [handler, hopt, hc, hrs, serverErrorResponse] at h400
      · have h400b : resp.statusCode = 400 := by
          simpa [handler, hopt, hc, hrs] using h400
        have hnw := runSwitch_400_no_write w ev resp db ops hrs h400b
        simp [handler, hopt, hc, hrs, hnw.1, hnw.2]

/-- C6 witness: a concrete invalid Create is answered 400 and writes
nothing. -/
theorem validation_failure_no_write_witness :
    (handler "production" emptyWorld (postEvent noStatusInput)).resp.statusCode = 400 ∧
    ((handler "production" emptyWorld (postEvent noStatusInput)).ops = [] ∧
     (handler "production" emptyWorld (postEvent noStatusInput)).db = emptyWorld.db) :=
  ⟨by decide,
    validation_failure_no_write "production" emptyWorld (postEvent noStatusInput)
      (by decide)⟩

/-- C1 counterexample: a Create input with `status` absent and every other
field valid (adding a valid status makes validation pass) is answered 400,
not 201, and no entity is created. -/
theorem create_default_status_refuted :
    noStatusInput.status = none ∧
    validateAppointment { noStatusInput with status := some (.str "NE") } = [] ∧
    (handler "production" emptyWorld (postEvent noStatusInput)).resp.statusCode = 400 ∧
    (handler "production" emptyWorld (postEvent noStatusInput)).db = [] := by
  decide

/-- C1 (amended): a Create input with `status` absent never succeeds:
validation reports "Status inválido", the handler answers 400 with the full
violation list, and nothing is written.  The `|| 'NE'` default in
`transformToBackend` is unreachable for requests that pass validation. -/
theorem create_without_status_rejected (env : String) (w : World) (ev : Event)
    (d : Input)
    (hm : ev.httpMethod = "POST") (hb : ev.body = .ok d) (hc : w.connectOk = true)
    (hs : d.status = none) :
    "Status inválido" ∈ validateAppointment d ∧
    (handler env w ev).resp = validationErrorResponse (validateAppointment d) ∧
    (handler env w ev).resp.statusCode = 400 ∧
    (handler env w ev).db = w.db ∧ (handler env w ev).ops = [] := by
  have hmem : "Status inválido" ∈ validateAppointment d := by
    simp [validateAppointment, hs, truthy, inSet]
  have hv : validateAppointment d ≠ [] := by
    intro hnil
    rw [hnil] at hmem
    exact absurd hmem (List.not_mem_nil _)
  rw [handler_post_invalid env w ev d hm hb hc hv]
  exact ⟨hmem, rfl, rfl, rfl, rfl⟩

/-- C1 witness: the amended behaviour at the concrete no-status payload. -/
theorem create_without_status_rejected_witness :
    (postEvent noStatusInput).httpMethod = "POST" ∧ noStatusInput.status = none ∧
    ("Status inválido" ∈ validateAppointment noStatusInput ∧
     (handler "production" emptyWorld (postEvent noStatusInput)).resp =
       validationErrorResponse (validateAppointment noStatusInput) ∧
     (handler "production" emptyWorld (postEvent noStatusInput)).resp.statusCode = 400 ∧
     (handler "production" emptyWorld (postEvent noStatusInput)).db = emptyWorld.db ∧
     (handler "production" emptyWorld (postEvent noStatusInput)).ops = []) :=
  ⟨by decide, by decide,
    create_without_status_rejected "production" emptyWorld (postEvent noStatusInput)
      noStatusInput (by decide) rfl (by decide) (by decide)⟩

/-- C9: for every non-OPTIONS invocation the connection bookkeeping of the
try/finally block balances on every exit path: releases always equal
acquisitions; when `client.connect()` succeeds exactly one connection is
acquired and exactly one released, whatever branch or exception follows;
when it fails none is acquired (so none leaks). -/
theorem connection_always_released (env : String) (w : World) (ev : Event)
    (hno : ev.httpMethod ≠ "OPTIONS") :
    (handler env w ev).released = (handler env w ev).acquired ∧
    (w.connectOk = true →
      (handler env w ev).acquired = 1 ∧ (handler env w ev).released = 1) ∧
    (w.connectOk = false →
      (handler env w ev).acquired = 0 ∧ (handler env w ev).released = 0) := by
  cases hc : w.connectOk
  · simp [handler, hno, hc]
  · rcases hrs : runSwitch w ev with m | ⟨resp, db, ops⟩ <;>
      simp [handler, hno, hc, hrs]

/-- C9 witness: a concrete GET invocation balances its connection. -/
theorem connection_always_released_witness :
    badBodyGetEvent.httpMethod ≠ "OPTIONS" ∧
    ((handler "production" emptyWorld badBodyGetEvent).released =
      (handler "production" emptyWorld badBodyGetEvent).acquired ∧
     (emptyWorld.connectOk = true →
       (handler "production" emptyWorld badBodyGetEvent).acquired = 1 ∧
       (handler "production" emptyWorld badBodyGetEvent).released = 1) ∧
     (emptyWorld.connectOk = false →
       (handler "production" emptyWorld badBodyGetEvent).acquired = 0 ∧
       (handler "production" emptyWorld badBodyGetEvent).released = 0)) :=
  ⟨by decide,
    connection_always_released "production" emptyWorld badBodyGetEvent (by decide)⟩

/-- C10: every GET request is answered with the full ordered list computed
from the table alone — two GET requests against the same world give
identical results whatever their paths, so a path carrying a trailing id
segment reads the whole collection and no single-item read exists; POST
likewise ignores the path id (it is consulted only by PUT and DELETE). -/
theorem get_ignores_path_id (env : String) (w : World) (ev evB : Event)
    (hm : ev.httpMethod = "GET") (hmB : evB.httpMethod = "GET")
    (hc : w.connectOk = true) (hq : w.dbErr = none) :
    (handler env w ev).resp =
      listResponse ((listAppointments w.db).map transformToFrontend) ∧
    handler env w ev = handler env w evB ∧
    (handler env w ev).db = w.db ∧
    (∀ evP evQ : Event, evP.httpMethod = "POST" → evQ.httpMethod = "POST" →
      evP.body = evQ.body → handler env w evP = handler env w evQ) := by
  refine ⟨?_, ?_, ?_, ?_⟩
  · simp [handler, hm, hc, runSwitch, getBranch, hq]
  · simp only [handler, hm, hmB, runSwitch]
  · simp [handler, hm, hc, runSwitch, getBranch, hq]
  · intro evP evQ hP hQ hbody
    simp only [handler, hP, hQ, runSwitch, hbody]

/-- C10 witness: GET on the collection path and GET on an id-bearing path
coincide on a concrete world. -/
theorem get_ignores_path_id_witness :
    getEventA.httpMethod = "GET" ∧ getEventB.httpMethod = "GET" ∧
    emptyWorld.connectOk = true ∧ emptyWorld.dbErr = none ∧
    ((handler "production" emptyWorld getEventA).resp =
      listResponse ((listAppointments emptyWorld.db).map transformToFrontend) ∧
     handler "production" emptyWorld getEventA = handler "production" emptyWorld getEventB ∧
     (handler "production" emptyWorld getEventA).db = emptyWorld.db ∧
     (∀ evP evQ : Event, evP.httpMethod = "POST" → evQ.httpMethod = "POST" →
       evP.body = evQ.body →
       handler "production" emptyWorld evP = handler "production" emptyWorld evQ)) :=
  ⟨by decide, by decide, by decide, by decide,
    get_ignores_path_id "production" emptyWorld getEventA getEventB
      (by decide) (by decide) (by decide) (by decide)⟩

/-- C7 counterexample: a GET request with an unparsable body is answered
200, not 500 — the GET branch never parses the body, so "every request
whose body is unparsable" is too broad. -/

theorem unparsable_body_can_return_200 :
    badBodyGetEvent.body = .error "Unexpected token" ∧
    (handler "production" emptyWorld badBodyGetEvent).resp.statusCode = 200 := by
  refine ⟨rfl, ?_⟩
  simp [handler, badBodyGetEvent, emptyWorld, runSwitch, getBranch,
    listAppointments_nil, listResponse]

/-- C7 (amended): every request that actually reaches `JSON.parse` with an
unparsable body (POST, and PUT past the id guard) and every request whose
database query throws is answered with the 500 envelope: generic error
string, and the thrown message in `details` exactly when NODE_ENV is
"development" (a non-production configuration) — in particular suppressed
in production. -/

theorem infra_errors_return_500 (env msg : String) (w : World) (ev : Event)
    (d : Input) (b : BackendData)
    (hc : w.connectOk = true) :
    (ev.httpMethod = "POST" → ev.body = .error msg →
      (handler env w ev).resp = serverErrorResponse env msg ∧
      (handler env w ev).db = w.db) ∧
    (ev.httpMethod = "PUT" → appointmentIdOf ev ≠ "" →
      appointmentIdOf ev ≠ "appointments" → ev.body = .error msg →
      (handler env w ev).resp = serverErrorResponse env msg) ∧
    (ev.httpMethod = "GET" → w.dbErr = some msg →
      (handler env w ev).resp = serverErrorResponse env msg) ∧
    (ev.httpMethod = "POST" → ev.body = .ok d → validateAppointment d = [] →
      transformToBackend d = .ok b →
      w.dbErr = some msg → (handler env w ev).resp = serverErrorResponse env msg) ∧
    ((serverErrorResponse env msg).statusCode = 500 ∧
     (serverErrorResponse env msg).respError = some "Erro interno do servidor" ∧
     ((serverErrorResponse env msg).respDetails ≠ none ↔ env = "development") ∧
     (env = "production" → (serverErrorResponse env msg).respDetails = none) ∧
     ((serverErrorResponse env msg).respDetails ≠ none → env ≠ "production")) := by
  refine ⟨?_, ?_, ?_, ?_, rfl, rfl, ?_, ?_, ?_⟩
  · intro hm herr
    constructor <;> simp [handler, hm, hc, runSwitch, postBranch, herr]
  · intro hm h1 h2 herr
    simp [handler, hm, hc, runSwitch, putBranch, h1, h2, herr]
  · intro hm hq
    simp [handler, hm, hc, runSwitch, getBranch, hq]
  · intro hm hb hv hT hq
    simp [handler, hm, hc, runSwitch, postBranch, hb, hv, hT, hq]
  · by_cases he : env = "development" <;>
      simp [serverErrorResponse, Response.respDetails, he]
  · intro hp
    subst hp
    simp [serverErrorResponse, Response.respDetails]
  · intro hne hp
    subst hp
    simp [serverErrorResponse, Response.respDetails] at hne

/-- C7 witness: a GET against a throwing database yields the 500 envelope. -/
theorem infra_errors_return_500_witness :
    errWorld.connectOk = true ∧
    (handler "production" errWorld badBodyGetEvent).resp =
      serverErrorResponse "production" "db down" :=
  ⟨by decide,
    (infra_errors_return_500 "production" "db down" errWorld badBodyGetEvent {}
      validBackend (by decide)).2.2.1 (by decide) (by decide)⟩

